import Mathlib

/-!
Verification of `src/PluginCore/PluginEventSource.h` (FireBreath).

The header declares class `FB::PluginEventSource`, a publish/subscribe event
source.  The registry is `std::vector<boost::weak_ptr<PluginEventSink>>`
(`ObserverMap m_observers`) guarded by a `boost::recursive_mutex`.  The inline
members `get_as<T>`, `validType<T>` and `shared_ptr()` are defined in the
header and are embedded directly from their bodies.  The out-of-line bodies of
`AttachObserver`, `DetachObserver` and `SendEvent`, and the semantics of
`boost::enable_shared_from_this`, are not part of the supplied fragment; those
are modelled from the specification (each such definition says so in its doc
comment).

Modelling conventions:
* sinks are identified by `SinkId := Nat`; a weak_ptr entry stores the id and
  confers no ownership;
* liveness of a sink (whether `weak_ptr::lock()` succeeds) is an external
  function `live : SinkId → Bool`, since the source never owns sinks;
* a sink handler is a function from the sink id and the current source state to
  the new source state and the handled flag, so re-entrant handlers that call
  `AttachObserver` / `DetachObserver` / `SendEvent` on the same source are
  expressible;
* raw pointers are `Option Nat` (`none` = NULL), exceptions are `Except`.
-/

namespace FB

/-- Identity of a `PluginEventSink` (the pointee of a `weak_ptr` entry). -/
abbrev SinkId := Nat

/-- State of a `FB::PluginEventSource` object.  `m_observers` is the
`ObserverMap` (a `std::vector` of weak references, in insertion order);
`thisAddr` models the `this` pointer; `dynType` the object's dynamic type
(most-derived class), used by `dynamic_cast`; `weakThis` the internal weak
reference seeded by `boost::enable_shared_from_this` when the first owning
`shared_ptr` to the object is created (`none` before any owner exists),
holding the id of that owner group's control block. -/
structure PluginEventSource where
  m_observers : List SinkId
  thisAddr : Nat
  dynType : Nat
  weakThis : Option Nat
  deriving Repr, DecidableEq

/-- Modelled from the spec: the body of `AttachObserver` is in
`PluginEventSource.cpp`, which is not part of the supplied fragment.  Per
§4.1 it "records a non-owning reference to it in the registry under the
lock", with "no uniqueness check", and the "registry grows by one entry"
(insertion order). -/
def AttachObserver (s : PluginEventSource) (sink : SinkId) : PluginEventSource :=
  { s with m_observers := s.m_observers ++ [sink] }

/-- Modelled from the spec: the body of `DetachObserver` is in
`PluginEventSource.cpp`, which is not part of the supplied fragment.  Per
§4.1 it "removes all registry entries that refer to the same sink identity,
under the lock"; absence is a silent no-op. -/
def DetachObserver (s : PluginEventSource) (sink : SinkId) : PluginEventSource :=
  { s with m_observers := s.m_observers.filter (fun j => j != sink) }

/-- A sink's event-handling callback for a fixed event: given the sink id and
the current source state it returns the new source state (the handler may
re-enter `AttachObserver` / `DetachObserver` / `SendEvent` on the same
source) and whether it handled the event. -/
abbrev Handler := SinkId → PluginEventSource → PluginEventSource × Bool

/-- A handler that does not mutate the source and reports `h i` for sink `i`. -/
def pureHandler (h : SinkId → Bool) : Handler := fun i s => (s, h i)

/-- Modelled from the spec: the dispatch loop of `SendEvent`
(`PluginEventSource.cpp` is not part of the supplied fragment).  Per §4.2 the
walk is over a snapshot of the registry taken at entry: for each entry,
resolve the weak reference (`live`); if resolution fails, skip the entry
without error; otherwise invoke the sink's handler and accumulate the
handled flag with boolean "or".  Returns the final source state, the
accumulated flag, and the invocation log (sink id and reported flag, in
invocation order). -/
def dispatchFrom (live : SinkId → Bool) (handle : Handler) :
    List SinkId → PluginEventSource → PluginEventSource × Bool × List (SinkId × Bool)
  | [], s => (s, false, [])
  | i :: rest, s =>
    if live i then
      let hi := handle i s
      let r := dispatchFrom live handle rest hi.1
      (r.1, hi.2 || r.2.1, (i, hi.2) :: r.2.2)
    else
      dispatchFrom live handle rest s

/-- Modelled from the spec: `SendEvent` walks a snapshot of `m_observers`
taken at entry (§4.2: "newly attached observers are not guaranteed to be
visited during the in-progress dispatch pass (snapshot semantics)"). -/
def SendEvent (live : SinkId → Bool) (handle : Handler) (s : PluginEventSource) :
    PluginEventSource × Bool × List (SinkId × Bool) :=
  dispatchFrom live handle s.m_observers s

/-- Models `dynamic_cast<T*>(this)`: yields the (non-null) `this` pointer
when the object's dynamic type can be cast to `T` under the runtime subtype
relation `sub`, and NULL (`none`) otherwise.  Target types are identified by
`Nat`. -/
def dynamicCast (sub : Nat → Nat → Bool) (T : Nat) (s : PluginEventSource) : Option Nat :=
  if sub s.dynType T then some s.thisAddr else none

/-- The exception thrown by `get_as` (`std::bad_cast`). -/
inductive CastErr where
  | badCast
  deriving Repr, DecidableEq

/-- Embeds `template <class T> T* get_as()` from the header:
`T* tmp = dynamic_cast<T*>(this); if (!tmp) throw std::bad_cast(); return tmp;`.
The result pairs the outcome (thrown exception or returned pointer) with the
object after the call, which the body never modifies. -/
def get_as (sub : Nat → Nat → Bool) (T : Nat) (s : PluginEventSource) :
    Except CastErr (Option Nat) × PluginEventSource :=
  let tmp := dynamicCast sub T s
  if tmp = none then (Except.error CastErr.badCast, s)
  else (Except.ok tmp, s)

/-- Embeds `template<class T> bool validType()` from the header:
`T* out(dynamic_cast<T*>(this)); return out != NULL;`. -/
def validType (sub : Nat → Nat → Bool) (T : Nat) (s : PluginEventSource) : Bool :=
  let out := dynamicCast sub T s
  out != none

/-- The exception thrown by `boost::shared_from_this` when no owning
reference exists yet (`boost::bad_weak_ptr`). -/
inductive WeakPtrErr where
  | badWeakPtr
  deriving Repr, DecidableEq

/-- An owning `shared_ptr` handle: the address of the referent and the id of
the control block whose ownership it shares. -/
structure SharedHandle where
  addr : Nat
  ctrl : Nat
  deriving Repr, DecidableEq

/-- Modelled from the spec: the semantics of
`boost::enable_shared_from_this::shared_from_this` (boost is not part of the
supplied fragment).  If an owning reference already exists, `weakThis` holds
its control block and a new owning handle to `this` in that same group is
returned; before any owner exists the call is a fatal precondition
violation (it throws `bad_weak_ptr`). -/
def shared_from_this (s : PluginEventSource) : Except WeakPtrErr SharedHandle :=
  match s.weakThis with
  | none => Except.error WeakPtrErr.badWeakPtr
  | some c => Except.ok ⟨s.thisAddr, c⟩

/-- Embeds `PluginEventSourcePtr shared_ptr() { return shared_from_this(); }`
from the header. -/
def shared_ptr (s : PluginEventSource) : Except WeakPtrErr SharedHandle :=
  shared_from_this s

/-- A world pairing the source state with the number of owning references
each sink has from its external owners.  The registry entries are weak, so
they contribute nothing to `strong`. -/
structure World where
  src : PluginEventSource
  strong : SinkId → Nat

/-- A sink is live exactly while some external owner holds it. -/
def liveOf (w : World) : SinkId → Bool := fun k => decide (0 < w.strong k)

/-- The operations the source offers on its registry. -/
inductive SrcOp where
  | attach (k : SinkId)
  | detach (k : SinkId)
  | send (h : SinkId → Bool)

/-- Run one source operation on a world.  Each operation acts on the
registry only; none of them creates or destroys an owning reference to any
sink (the registry stores `weak_ptr`s). -/
def applyOp (w : World) : SrcOp → World
  | SrcOp.attach k => { w with src := AttachObserver w.src k }
  | SrcOp.detach k => { w with src := DetachObserver w.src k }
  | SrcOp.send h => { w with src := (SendEvent (liveOf w) (pureHandler h) w.src).1 }

/-- Run a sequence of source operations. -/
def applyOps (w : World) (ops : List SrcOp) : World :=
  ops.foldl applyOp w

/-- A handler that re-enters the same source from inside its invocation: it
calls `AttachObserver this j` and then `SendEvent` on the updated source,
reporting the nested dispatch's result.  Used to exercise re-entrancy. -/
def reentrantHandler (live : SinkId → Bool) (h : SinkId → Bool) (j : SinkId) : Handler :=
  fun _ st =>
    let st2 := AttachObserver st j
    (st2, (SendEvent live (pureHandler h) st2).2.1)

/-! ### Dispatch lemmas -/

/-- With a non-mutating handler, dispatch leaves the state unchanged,
returns the disjunction of the reports of the live entries, and logs
exactly the live entries in order. -/
theorem dispatchFrom_pure (live : SinkId → Bool) (h : SinkId → Bool)
    (l : List SinkId) (s : PluginEventSource) :
    dispatchFrom live (pureHandler h) l s =
      (s, l.any (fun i => live i && h i), (l.filter live).map (fun i => (i, h i))) := by
  induction l generalizing s with
  | nil => rfl
  | cons i rest ih =>
    simp only [dispatchFrom, pureHandler, List.any_cons, List.filter_cons]
    by_cases hl : live i = true
    · simp [hl, ih]
    · simp only [Bool.not_eq_true] at hl
      simp [hl, ih]

/-- The sinks invoked by a dispatch pass are exactly the live entries of the
snapshot, in order, whatever the handler does to the source state. -/
theorem dispatchFrom_invoked (live : SinkId → Bool) (handle : Handler)
    (l : List SinkId) (s : PluginEventSource) :
    ((dispatchFrom live handle l s).2.2).map Prod.fst = l.filter live := by
  induction l generalizing s with
  | nil => rfl
  | cons i rest ih =>
    simp only [dispatchFrom, List.filter_cons]
    by_cases hl : live i = true
    · simp [hl, ih]
    · simp only [Bool.not_eq_true] at hl
      simp [hl, ih]

/-- The accumulated flag of a dispatch pass is true exactly when some logged
invocation reported true. -/
theorem dispatchFrom_handled_iff (live : SinkId → Bool) (handle : Handler)
    (l : List SinkId) (s : PluginEventSource) :
    (dispatchFrom live handle l s).2.1 = true ↔
      ∃ p ∈ (dispatchFrom live handle l s).2.2, p.2 = true := by
  induction l generalizing s with
  | nil => simp [dispatchFrom]
  | cons i rest ih =>
    simp only [dispatchFrom]
    by_cases hl : live i = true
    · simp only [hl, if_true, Bool.or_eq_true, List.mem_cons]
      constructor
      · rintro (hb | hb)
        · exact ⟨(i, (handle i s).2), Or.inl rfl, hb⟩
        · obtain ⟨p, hp, hp2⟩ := (ih _).mp hb
          exact ⟨p, Or.inr hp, hp2⟩
      · rintro ⟨p, (hp | hp), hp2⟩
        · subst hp; exact Or.inl hp2
        · exact Or.inr ((ih _).mpr ⟨p, hp, hp2⟩)
    · simp only [Bool.not_eq_true] at hl
      simp only [hl, Bool.false_eq_true, if_false]
      exact ih s

/-! ### Claim theorems -/

/-- C1: `SendEvent` returns true iff at least one live, attached sink's
handler invocation reports having handled the event, and returns false when
zero sinks are attached. -/
theorem C1_send_result_aggregation (live : SinkId → Bool) (h : SinkId → Bool)
    (s : PluginEventSource) :
    ((SendEvent live (pureHandler h) s).2.1 = true ↔
      ∃ i ∈ s.m_observers, live i = true ∧ h i = true)
    ∧ (s.m_observers = [] → (SendEvent live (pureHandler h) s).2.1 = false) := by
  constructor
  · simp [SendEvent, dispatchFrom_pure, List.any_eq_true]
  · intro hempty
    simp [SendEvent, hempty, dispatchFrom]

/-- C1 witness: a concrete dispatch where sink 1 reports not-handled and
sink 2 reports handled, and a concrete empty registry. -/
theorem C1_send_result_aggregation_witness :
    (((SendEvent (fun _ => true) (pureHandler (fun i => i == 2))
        ⟨[1, 2], 0, 0, none⟩).2.1 = true ↔
      ∃ i ∈ [1, 2], (fun _ => true) i = true ∧ (i == 2) = true)
    ∧ (([1, 2] : List SinkId) = [] →
      (SendEvent (fun _ => true) (pureHandler (fun i => i == 2))
        ⟨[1, 2], 0, 0, none⟩).2.1 = false)) ∧
    (SendEvent (fun _ => true) (pureHandler (fun i => i == 2))
        ⟨[1, 2], 0, 0, none⟩).2.1 = true :=
  ⟨C1_send_result_aggregation (fun _ => true) (fun i => i == 2) ⟨[1, 2], 0, 0, none⟩,
   by decide⟩

/-- Any logged invocation is of a sink that was in the snapshot and live. -/
theorem mem_invoked (live : SinkId → Bool) (handle : Handler)
    (s : PluginEventSource) (k : SinkId) (b : Bool)
    (hmem : (k, b) ∈ (SendEvent live handle s).2.2) :
    k ∈ s.m_observers ∧ live k = true := by
  have hk : k ∈ ((SendEvent live handle s).2.2).map Prod.fst :=
    List.mem_map.mpr ⟨(k, b), hmem, rfl⟩
  rw [SendEvent, dispatchFrom_invoked] at hk
  exact ⟨List.mem_of_mem_filter hk, List.of_mem_filter hk⟩

/-- C2: `validType` returns true exactly when `get_as` succeeds on the same
object and target type; when the type does not match, `get_as` throws
`std::bad_cast`; and `get_as` never modifies the object. -/
theorem C2_validType_iff_get_as (sub : Nat → Nat → Bool) (T : Nat)
    (s : PluginEventSource) :
    (validType sub T s = true ↔ ∃ p, (get_as sub T s).1 = Except.ok p)
    ∧ (validType sub T s = false →
        (get_as sub T s).1 = Except.error CastErr.badCast)
    ∧ (get_as sub T s).2 = s := by
  by_cases hsub : sub s.dynType T = true
  · simp [validType, get_as, dynamicCast, hsub]
  · simp only [Bool.not_eq_true] at hsub
    simp [validType, get_as, dynamicCast, hsub]

/-- C2 witness: a concrete object of dynamic type 3 queried at the matching
type 3 and at the mismatching type 4. -/
theorem C2_validType_iff_get_as_witness :
    ((validType (fun a b => a == b) 3 ⟨[], 0, 3, none⟩ = true ↔
        ∃ p, (get_as (fun a b => a == b) 3 ⟨[], 0, 3, none⟩).1 = Except.ok p)
      ∧ (validType (fun a b => a == b) 3 ⟨[], 0, 3, none⟩ = false →
          (get_as (fun a b => a == b) 3 ⟨[], 0, 3, none⟩).1 =
            Except.error CastErr.badCast)
      ∧ (get_as (fun a b => a == b) 3 ⟨[], 0, 3, none⟩).2 = ⟨[], 0, 3, none⟩)
    ∧ validType (fun a b => a == b) 3 ⟨[], 0, 3, none⟩ = true
    ∧ validType (fun a b => a == b) 4 ⟨[], 0, 3, none⟩ = false
    ∧ (get_as (fun a b => a == b) 4 ⟨[], 0, 3, none⟩).1 =
        Except.error CastErr.badCast :=
  ⟨C2_validType_iff_get_as (fun a b => a == b) 3 ⟨[], 0, 3, none⟩,
   by decide, by decide, rfl⟩

/-- C3: attaching the same sink twice yields two registry entries, each
subsequent dispatch invokes it exactly twice, and a single `DetachObserver`
removes all matching entries, after which dispatch no longer invokes it. -/
theorem C3_double_attach_multiplicity (live : SinkId → Bool) (h : SinkId → Bool)
    (s : PluginEventSource) (k : SinkId)
    (hk : k ∉ s.m_observers) (hlive : live k = true) :
    (AttachObserver (AttachObserver s k) k).m_observers.count k = 2
    ∧ (((SendEvent live (pureHandler h)
          (AttachObserver (AttachObserver s k) k)).2.2).map Prod.fst).count k = 2
    ∧ (DetachObserver (AttachObserver (AttachObserver s k) k) k).m_observers.count k = 0
    ∧ ∀ b, (k, b) ∉ (SendEvent live (pureHandler h)
          (DetachObserver (AttachObserver (AttachObserver s k) k) k)).2.2 := by
  have hcount0 : s.m_observers.count k = 0 := List.count_eq_zero.mpr hk
  have hreg : (AttachObserver (AttachObserver s k) k).m_observers
      = s.m_observers ++ [k, k] := by
    simp [AttachObserver]
  have hc2 : (s.m_observers ++ [k, k]).count k = 2 := by
    simp [List.count_append, hcount0]
  refine ⟨by rw [hreg]; exact hc2, ?_, ?_, ?_⟩
  · rw [SendEvent, dispatchFrom_invoked, hreg, List.filter_append]
    have hfk : List.filter live [k, k] = [k, k] := by
      simp [List.filter, hlive]
    rw [hfk, List.count_append]
    have : (s.m_observers.filter live).count k = 0 :=
      List.count_eq_zero.mpr (fun hmem => hk (List.mem_of_mem_filter hmem))
    simp [this]
  · refine List.count_eq_zero.mpr (fun hmem => ?_)
    have := List.of_mem_filter (p := fun j => j != k) hmem
    simp at this
  · intro b hmem
    have hmem2 := (mem_invoked live (pureHandler h) _ k b hmem).1
    have := List.of_mem_filter (p := fun j => j != k) hmem2
    simp at this

/-- C3 witness: starting from an empty registry, attach sink 5 twice with an
always-live, always-handle environment. -/
theorem C3_double_attach_multiplicity_witness :
    (5 ∉ (⟨[], 0, 0, none⟩ : PluginEventSource).m_observers)
    ∧ ((AttachObserver (AttachObserver ⟨[], 0, 0, none⟩ 5) 5).m_observers.count 5 = 2
      ∧ (((SendEvent (fun _ => true) (pureHandler (fun _ => true))
            (AttachObserver (AttachObserver ⟨[], 0, 0, none⟩ 5) 5)).2.2).map
              Prod.fst).count 5 = 2
      ∧ (DetachObserver (AttachObserver (AttachObserver ⟨[], 0, 0, none⟩ 5) 5)
            5).m_observers.count 5 = 0
      ∧ ∀ b, (5, b) ∉ (SendEvent (fun _ => true) (pureHandler (fun _ => true))
            (DetachObserver (AttachObserver (AttachObserver ⟨[], 0, 0, none⟩ 5) 5)
              5)).2.2) :=
  ⟨by decide,
   C3_double_attach_multiplicity (fun _ => true) (fun _ => true)
     ⟨[], 0, 0, none⟩ 5 (by decide) rfl⟩

/-- C4: a dispatch after a sink has been destroyed (its weak reference no
longer resolves) never invokes that sink, and the entries actually invoked
are exactly the still-live registry entries — the dead entry is skipped
without disturbing the pass. -/
theorem C4_weak_survival (live : SinkId → Bool) (handle : Handler)
    (s : PluginEventSource) (k : SinkId) (hdead : live k = false) :
    (∀ b, (k, b) ∉ (SendEvent live handle s).2.2)
    ∧ ((SendEvent live handle s).2.2).map Prod.fst = s.m_observers.filter live := by
  refine ⟨fun b hmem => ?_, dispatchFrom_invoked live handle s.m_observers s⟩
  have := (mem_invoked live handle s k b hmem).2
  rw [hdead] at this
  exact Bool.false_ne_true this

/-- C4 witness: sink 3 is attached but destroyed (not live); sink 1 is
live.  The dispatch invokes only sink 1. -/
theorem C4_weak_survival_witness :
    ((fun i => i != 3) 3 = false)
    ∧ ((∀ b, (3, b) ∉ (SendEvent (fun i => i != 3) (pureHandler (fun _ => true))
          ⟨[1, 3], 0, 0, none⟩).2.2)
      ∧ ((SendEvent (fun i => i != 3) (pureHandler (fun _ => true))
          ⟨[1, 3], 0, 0, none⟩).2.2).map Prod.fst =
            List.filter (fun i => i != 3) [1, 3]) :=
  ⟨rfl, C4_weak_survival (fun i => i != 3) (pureHandler (fun _ => true))
    ⟨[1, 3], 0, 0, none⟩ 3 rfl⟩

/-- C5: detaching a sink that is not in the registry is a silent no-op: the
source state is fully unchanged. -/
theorem C5_detach_absent_noop (s : PluginEventSource) (k : SinkId)
    (hk : k ∉ s.m_observers) : DetachObserver s k = s := by
  cases s with
  | mk obs addr ty wk =>
    simp only [DetachObserver, PluginEventSource.mk.injEq, and_true, true_and]
    refine List.filter_eq_self.mpr (fun j hj => ?_)
    simp only [bne_iff_ne, ne_eq]
    rintro rfl
    exact hk hj

/-- C5 witness: detaching sink 7, absent from a two-entry registry. -/
theorem C5_detach_absent_noop_witness :
    (7 ∉ (⟨[1, 2], 0, 0, none⟩ : PluginEventSource).m_observers)
    ∧ DetachObserver ⟨[1, 2], 0, 0, none⟩ 7 = ⟨[1, 2], 0, 0, none⟩ :=
  ⟨by decide, C5_detach_absent_noop ⟨[1, 2], 0, 0, none⟩ 7 (by decide)⟩

/-- C6: `shared_ptr()` returns a new owning reference to the same object
when at least one owning reference already exists; before any owner exists
the call is a fatal precondition violation (`bad_weak_ptr`), not a normal
return. -/
theorem C6_shared_ptr_precondition (s : PluginEventSource) :
    (∀ c, s.weakThis = some c → shared_ptr s = Except.ok ⟨s.thisAddr, c⟩)
    ∧ (s.weakThis = none → shared_ptr s = Except.error WeakPtrErr.badWeakPtr) := by
  cases s with
  | mk obs addr ty wk =>
    cases wk with
    | none =>
      refine ⟨fun c hc => ?_, fun _ => rfl⟩
      exact absurd hc (by simp)
    | some c0 =>
      refine ⟨fun c hc => ?_, fun hn => ?_⟩
      · simp only [Option.some.injEq] at hc
        subst hc
        rfl
      · exact absurd hn (by simp)

/-- C6 witness: an object whose owner group already exists (control block 7)
yields an owning handle to its own address; an unowned object fails with
`bad_weak_ptr`. -/
theorem C6_shared_ptr_precondition_witness :
    ((⟨[], 4, 0, some 7⟩ : PluginEventSource).weakThis = some 7
      ∧ shared_ptr ⟨[], 4, 0, some 7⟩ = Except.ok ⟨4, 7⟩)
    ∧ ((⟨[], 4, 0, none⟩ : PluginEventSource).weakThis = none
      ∧ shared_ptr ⟨[], 4, 0, none⟩ = Except.error WeakPtrErr.badWeakPtr) :=
  ⟨⟨rfl, (C6_shared_ptr_precondition ⟨[], 4, 0, some 7⟩).1 7 rfl⟩,
   ⟨rfl, (C6_shared_ptr_precondition ⟨[], 4, 0, none⟩).2 rfl⟩⟩

/-- C7: every sequence of source operations (attach, detach, send) leaves
every sink's owning reference count unchanged — the registry holds only weak
references, so it never holds the last owning reference to a sink and
attaching a sink never extends its lifetime. -/
theorem C7_registry_never_owns (w : World) (ops : List SrcOp) :
    (applyOps w ops).strong = w.strong ∧ liveOf (applyOps w ops) = liveOf w := by
  have hstrong : ∀ (ops : List SrcOp) (w : World),
      (applyOps w ops).strong = w.strong := by
    intro ops
    induction ops with
    | nil => intro w; rfl
    | cons op rest ih =>
      intro w
      have hstep : (applyOp w op).strong = w.strong := by
        cases op <;> rfl
      calc (applyOps w (op :: rest)).strong
          = (applyOps (applyOp w op) rest).strong := rfl
        _ = (applyOp w op).strong := ih (applyOp w op)
        _ = w.strong := hstep
  refine ⟨hstrong ops w, ?_⟩
  have := hstrong ops w
  funext k
  simp [liveOf, this]

/-- C8: the dispatch pass walks the snapshot of the registry taken at
entry, so a sink that was not attached when the pass began — in particular
one attached from inside a handler during this very pass — is not invoked
during this pass, for every handler, including re-entrant handlers that
call `AttachObserver` / `DetachObserver` / `SendEvent` on the same source
(any such re-entrant call is an ordinary nested evaluation of the total
functions above, so it completes; the recursive lock never self-blocks). -/
theorem C8_snapshot_reentrancy (live : SinkId → Bool) (handle : Handler)
    (s : PluginEventSource) (j : SinkId) (hj : j ∉ s.m_observers) :
    ∀ b, (j, b) ∉ (SendEvent live handle s).2.2 := by
  intro b hmem
  exact hj (mem_invoked live handle s j b hmem).1

/-- C8 witness: a handler that, from inside the dispatch over registry
`[1]`, re-enters the source to attach sink 9 and run a nested `SendEvent`;
sink 9 is not invoked during the outer pass. -/
theorem C8_snapshot_reentrancy_witness :
    (9 ∉ (⟨[1], 0, 0, none⟩ : PluginEventSource).m_observers)
    ∧ ∀ b, (9, b) ∉ (SendEvent (fun _ => true)
        (reentrantHandler (fun _ => true) (fun _ => true) 9)
        ⟨[1], 0, 0, none⟩).2.2 :=
  ⟨by decide,
   C8_snapshot_reentrancy (fun _ => true)
     (reentrantHandler (fun _ => true) (fun _ => true) 9)
     ⟨[1], 0, 0, none⟩ 9 (by decide)⟩

/-- C9: `get_as` never returns a null pointer: the call either throws
`std::bad_cast` or returns the non-null `this` pointer (despite the doc
comment in the header claiming it returns null on failure). -/
theorem C9_get_as_never_null (sub : Nat → Nat → Bool) (T : Nat)
    (s : PluginEventSource) :
    ((get_as sub T s).1 = Except.error CastErr.badCast
      ∨ (get_as sub T s).1 = Except.ok (some s.thisAddr))
    ∧ (get_as sub T s).1 ≠ Except.ok none := by
  by_cases hsub : sub s.dynType T = true
  · simp [get_as, dynamicCast, hsub]
  · simp only [Bool.not_eq_true] at hsub
    simp [get_as, dynamicCast, hsub]

/-- C9 witness: both the matching cast (returns `this`, address 4) and the
failing cast (throws) are exercised at a concrete object. -/
theorem C9_get_as_never_null_witness :
    (((get_as (fun a b => a == b) 3 ⟨[], 4, 3, none⟩).1 =
          Except.error CastErr.badCast
      ∨ (get_as (fun a b => a == b) 3 ⟨[], 4, 3, none⟩).1 = Except.ok (some 4))
    ∧ (get_as (fun a b => a == b) 3 ⟨[], 4, 3, none⟩).1 ≠ Except.ok none)
    ∧ (get_as (fun a b => a == b) 3 ⟨[], 4, 3, none⟩).1 = Except.ok (some 4)
    ∧ (get_as (fun a b => a == b) 9 ⟨[], 4, 3, none⟩).1 =
        Except.error CastErr.badCast :=
  ⟨C9_get_as_never_null (fun a b => a == b) 3 ⟨[], 4, 3, none⟩, rfl, rfl⟩

/-- C10: whenever `shared_ptr()` succeeds, the returned handle points at the
very object it was called on, and any two successful calls return handles
in the same ownership group (indeed equal handles), never independent
ownership groups. -/
theorem C10_shared_ptr_identity (s : PluginEventSource) (h₁ h₂ : SharedHandle)
    (e₁ : shared_ptr s = Except.ok h₁) (e₂ : shared_ptr s = Except.ok h₂) :
    h₁.addr = s.thisAddr ∧ h₁.ctrl = h₂.ctrl ∧ h₁ = h₂ := by
  cases s with
  | mk obs addr ty wk =>
    cases wk with
    | none =>
      exact absurd e₁ (by simp [shared_ptr, shared_from_this])
    | some c0 =>
      simp only [shared_ptr, shared_from_this, Except.ok.injEq] at e₁ e₂
      subst e₁
      subst e₂
      exact ⟨rfl, rfl, rfl⟩

/-- C10 witness: two calls on an owned object at address 4 with control
block 7 both yield the handle (4, 7). -/
theorem C10_shared_ptr_identity_witness :
    shared_ptr ⟨[], 4, 0, some 7⟩ = Except.ok ⟨4, 7⟩
    ∧ ((⟨4, 7⟩ : SharedHandle).addr =
        (⟨[], 4, 0, some 7⟩ : PluginEventSource).thisAddr
      ∧ (⟨4, 7⟩ : SharedHandle).ctrl = (⟨4, 7⟩ : SharedHandle).ctrl
      ∧ (⟨4, 7⟩ : SharedHandle) = ⟨4, 7⟩) :=
  ⟨rfl, C10_shared_ptr_identity ⟨[], 4, 0, some 7⟩ ⟨4, 7⟩ ⟨4, 7⟩ rfl rfl⟩

end FB
